import Mathlib

/-!
# Verification of the actor runtime in `generator_process/actor.py`

Shallow embedding of the cross-process actor layer: the `Future` result
handle, the `Message` sentinels, the backend dispatch (`Actor._receive`,
`Actor._backend_loop`), the frontend sender loop (`Actor._send`), the
frontend proxy setup (`Actor._setup` / `Actor._protected_methods`) and the
shared-instance registry (`Actor.__init__` / `Actor.shared`).

Python objects flowing through the queues are modelled by `Value`; Python
exceptions by `PyErr`; the wrapped backend error by `TracedError`.  The
mutable `Future` object is modelled as a record, and each of its methods as
a function returning the updated record together with the callback
invocations it performed (`events`) and the exception it raised, if any
(`raised`).  The two inter-process queues are modelled as lists: the
outbound (message) queue as a `List Value` state threaded through the
backend, the inbound (response) queue as the `List WireValue` the backend
produced and the sender consumes.
-/

/-- A picklable Python value travelling through the queues.  `vnone` is
Python's `None`. -/
inductive Value where
  | vnone : Value
  | int : Int → Value
  | str : String → Value
deriving DecidableEq, Repr

/-- What `Future.result` can return: `None` or a single response (a plain
value), or the whole list of responses. -/
inductive ResultValue where
  | ofValue : Value → ResultValue
  | ofList : List Value → ResultValue
deriving DecidableEq, Repr

/-- `Message.END`, the string `"__end__"` (actor.py line 141). -/
def endValue : Value := Value.str "__end__"

/-- `Message.CANCEL`, the string `"__cancel__"` (actor.py line 140). -/
def cancelValue : Value := Value.str "__cancel__"

/-- A Python exception: its type name, message, and the `__cause__`
attached by the sender thread (the backend's formatted trace). -/
structure PyErr where
  name : String
  msg : String
  cause : Option String
deriving DecidableEq, Repr

/-- The `AssertionError` raised by a failing `assert`. -/
def PyErr.assertionError : PyErr := ⟨"AssertionError", "", Option.none⟩

/-- `TracedError` (actor.py lines 150-153): a caught backend exception
together with the formatted trace captured at the point of failure. -/
structure TracedError where
  base : PyErr
  trace : String
deriving DecidableEq, Repr

/-- A payload on the response queue: a plain value, a `TracedError`, or a
bare exception object.  The `END` sentinel is the plain value
`endValue` (the backend pushes the string `Message.END`). -/
inductive WireValue where
  | val : Value → WireValue
  | traced : TracedError → WireValue
  | exc : PyErr → WireValue
deriving DecidableEq, Repr

/-- A callback invocation performed by a `Future` method: response
callbacks receive the value, done callbacks receive only the future.
Callbacks are identified by the `Nat` id under which they were
registered. -/
inductive Event where
  | responseCb : Nat → Value → Event
  | doneCb : Nat → Event
deriving DecidableEq, Repr

/-- The state of a `Future` (actor.py lines 10-31).  `cancelled` is the
attribute initialised in `__init__` and read by the sender thread;
`ucancelled` is the distinct attribute `_cancelled` that `cancel()`
assigns (actor.py line 71). -/
structure Future where
  responses : List Value
  exception : Option PyErr
  done : Bool
  cancelled : Bool
  ucancelled : Bool
  responseCallbacks : List Nat
  doneCallbacks : List Nat
deriving DecidableEq, Repr

/-- A fresh `Future` as built by `Future.__init__` (lines 24-31), with the
given registered callbacks. -/
def Future.fresh (rcb dcb : List Nat) : Future :=
  ⟨[], Option.none, false, false, false, rcb, dcb⟩

/-- Outcome of running one `Future` method: the updated future, the
callback invocations performed, and the exception raised (if any).  An
`assert` raises before mutating, so on `raised = some _` the returned
`future` is the state at the point of the raise. -/
structure OpResult where
  future : Future
  events : List Event
  raised : Option PyErr
deriving DecidableEq, Repr

/-- `Future.add_response` (lines 74-80): append the response and notify
every response callback with `(self, response)`. -/
def Future.add_response (f : Future) (v : Value) : OpResult :=
  ⟨{ f with responses := f.responses ++ [v] },
   f.responseCallbacks.map (fun i => Event.responseCb i v),
   Option.none⟩

/-- `Future.set_exception` (lines 82-86): record the exception.  Does not
mark done and invokes no callback. -/
def Future.set_exception (f : Future) (e : PyErr) : OpResult :=
  ⟨{ f with exception := some e }, [], Option.none⟩

/-- `Future.set_done` (lines 88-95): `assert not self.done`, flip `done`,
invoke every done callback with `(self)`.  When the assert fails the
future is unchanged. -/
def Future.set_done (f : Future) : OpResult :=
  if f.done then ⟨f, [], some PyErr.assertionError⟩
  else ⟨{ f with done := true }, f.doneCallbacks.map Event.doneCb, Option.none⟩

/-- `Future.cancel` (lines 70-72): assigns `self._cancelled = True` (note:
the attribute written is `_cancelled`, not the `cancelled` attribute the
sender thread reads) and then calls `set_done()`. -/
def Future.cancel (f : Future) : OpResult :=
  Future.set_done { f with ucancelled := true }

/-- The resolution applied by the inner `_response()` of `Future.result`
(lines 37-44): zero responses give `None`, one gives the value, several
give the whole list. -/
def resolveResponses (rs : List Value) : ResultValue :=
  match rs with
  | [] => ResultValue.ofValue Value.vnone
  | [v] => ResultValue.ofValue v
  | vs => ResultValue.ofList vs

/-- `Future.result` (lines 33-57) as far as it is determined by the
current state: `some (.error e)` when a recorded exception is re-raised,
`some (.ok v)` when the future is done and resolves to `v`, and `none`
when the call blocks on a registered done-callback. -/
def Future.result? (f : Future) : Option (Except PyErr ResultValue) :=
  match f.exception with
  | some e => some (Except.error e)
  | Option.none =>
    if f.done then some (Except.ok (resolveResponses f.responses))
    else Option.none

/-- The resolution `Future.result` applies after its wait completes
(lines 55-57): re-check the exception, then `_response()`. -/
def resolveDone (f : Future) : Except PyErr ResultValue :=
  match f.exception with
  | some e => Except.error e
  | Option.none => Except.ok (resolveResponses f.responses)

/-!
## The sender thread (`Actor._send`, actor.py lines 277-302)

One iteration of the `while not future.done` loop: if `future.cancelled`,
push `CANCEL` on the outbound queue; then block on the response queue and
dispatch on the payload received — `END` calls `set_done`, a `TracedError`
attaches its trace as the `__cause__` and calls `set_exception`, a bare
exception calls `set_exception`, anything else calls `add_response`.
-/

/-- The `__cause__` attachment of actor.py line 291: the stored exception
is the wrapped base with the formatted backend trace as its cause. -/
def attachTrace (t : TracedError) : PyErr :=
  { t.base with cause := some t.trace }

/-- Dispatch of one received response payload (actor.py lines 288-296). -/
def senderStep (f : Future) (r : WireValue) : OpResult :=
  match r with
  | WireValue.val v =>
    if v = endValue then Future.set_done f else Future.add_response f v
  | WireValue.traced t => Future.set_exception f (attachTrace t)
  | WireValue.exc e => Future.set_exception f e

/-- Trace of a run of the sender loop over a list of inbound response
payloads: the future's final state, the callback invocations, the number
of `CANCEL` sentinels pushed on the outbound queue, the number of
responses consumed, whether the loop exited because the future was done,
and the exception that escaped the loop body (killing the thread), if
any. -/
structure SenderTrace where
  future : Future
  events : List Event
  cancelsSent : Nat
  consumed : Nat
  exitedDone : Bool
  crashed : Option PyErr
deriving DecidableEq, Repr

/-- The `while not future.done` loop of `_send_thread` (actor.py lines
284-296), run against the given list of inbound payloads.  If the list
runs out while the future is not done, the thread is blocked in
`self._response_queue.get()` (`exitedDone = false`, `crashed = none`). -/
def senderRunAux (f : Future) (ev : List Event) (sent consumed : Nat) :
    List WireValue → SenderTrace
  | [] =>
    if f.done then ⟨f, ev, sent, consumed, true, Option.none⟩
    else ⟨f, ev, (if f.cancelled then sent + 1 else sent), consumed,
          false, Option.none⟩
  | r :: rest =>
    if f.done then ⟨f, ev, sent, consumed, true, Option.none⟩
    else
      let sent' := if f.cancelled then sent + 1 else sent
      let o := senderStep f r
      match o.raised with
      | some e => ⟨o.future, ev ++ o.events, sent', consumed + 1, false, some e⟩
      | Option.none =>
        senderRunAux o.future (ev ++ o.events) sent' (consumed + 1) rest

/-- The sender loop started on a future, fed the given inbound payloads. -/
def senderRun (f : Future) (rs : List WireValue) : SenderTrace :=
  senderRunAux f [] 0 0 rs

/-!
## The backend dispatch (`Actor._receive`, actor.py lines 257-275)

The invoked method's behaviour is abstracted as `CallBehavior`: it returns
a single value, returns a generator that yields some values and then
either finishes or raises, or raises immediately.  The outbound message
queue (from which the generator loop does its non-blocking
`self._message_queue.get(block=False)` drain) is a `List Value`.
-/

/-- Behaviour of `getattr(self, message.method_name)(*args, **kwargs)`. -/
inductive CallBehavior where
  | single : Value → CallBehavior
  | gen : List Value → Option (PyErr × String) → CallBehavior
  | raises : PyErr → String → CallBehavior
deriving DecidableEq, Repr

/-- The generator branch of `_receive` (actor.py lines 261-269): for each
yielded value, set `extra_message = None`, drain one message from the
inbound queue non-blocking (its result is discarded; an empty queue
raises, which is swallowed), break if `extra_message == Message.CANCEL`
(never true, since `extra_message` was just assigned `None`), otherwise
push the value.  Returns the remaining message queue and the pushed
payloads. -/
def receiveGenLoop (mq : List Value) (out : List WireValue) :
    List Value → List Value × List WireValue
  | [] => (mq, out)
  | v :: rest =>
    let extraMessage : Option Value := Option.none
    let mq' := mq.drop 1
    if extraMessage = some cancelValue then (mq', out)
    else receiveGenLoop mq' (out ++ [WireValue.val v]) rest

/-- `Actor._receive` (actor.py lines 257-275): invoke the method; iterate
a generator result (with the dead cancel check), or push a single result;
on an exception, push `TracedError(e, trace)` instead; always push the
`END` sentinel last.  Returns the remaining message queue and the payloads
pushed on the response queue. -/
def Actor.receive (mq : List Value) (beh : CallBehavior) :
    List Value × List WireValue :=
  match beh with
  | CallBehavior.single v => (mq, [WireValue.val v, WireValue.val endValue])
  | CallBehavior.raises e tr =>
    (mq, [WireValue.traced ⟨e, tr⟩, WireValue.val endValue])
  | CallBehavior.gen vs err =>
    let p := receiveGenLoop mq [] vs
    match err with
    | Option.none => (p.1, p.2 ++ [WireValue.val endValue])
    | some (e, tr) =>
      (p.1, p.2 ++ [WireValue.traced ⟨e, tr⟩, WireValue.val endValue])

/-- `Actor._backend_loop` (actor.py lines 252-255), serving a finite batch
of messages: `_receive` each in turn (it handles its own exceptions), and
concatenate everything pushed on the response queue. -/
def backendServe (mq : List Value) : List CallBehavior → List WireValue
  | [] => []
  | b :: rest =>
    let p := Actor.receive mq b
    p.2 ++ backendServe p.1 rest

/-!
## Frontend setup and the shared-instance registry
(`Actor._protected_methods` lines 174-180, `Actor._setup` lines 189-199,
`Actor.__init__` lines 182-187, `Actor.shared` lines 201-203)
-/

/-- `Actor._protected_methods` (actor.py lines 174-180): the method names
`_setup` must not override with proxies. -/
def protectedMethods : List String :=
  ["start", "close", "is_alive", "can_use", "shared"]

/-- A member found by `dir(self)`: its name and whether
`callable(getattr(self, name))` holds. -/
structure Member where
  name : String
  isCallable : Bool
deriving DecidableEq, Repr

/-- Python's `name.startswith("_")`: the name's first character is an
underscore. -/
def startsWithUnderscore (s : String) : Bool :=
  match s.data with
  | [] => false
  | c :: _ => c = '_'

/-- The filter of `Actor._setup` (actor.py line 196): a member is replaced
by a generated `_send` proxy exactly when it is callable, its name does
not start with an underscore, and its name is not protected. -/
def replacedByProxy (m : Member) : Bool :=
  m.isCallable && !(startsWithUnderscore m.name) &&
    !(protectedMethods.contains m.name)

/-- `ActorContext` (actor.py lines 118-126). -/
inductive ActorContext where
  | FRONTEND : ActorContext
  | BACKEND : ActorContext
deriving DecidableEq, Repr

/-- An actor instance: its context and an identity distinguishing
construction events. -/
structure ActorInst where
  ctx : ActorContext
  uid : Nat
deriving DecidableEq, Repr

/-- `Actor.__init__` (actor.py lines 182-187): build the instance and then
unconditionally execute `self.__class__._shared_instance = self`,
whatever the context and whatever the registry held before.  Returns the
instance and the updated class-level registry slot. -/
def actorInit (ctx : ActorContext) (uid : Nat) (_reg : Option ActorInst) :
    ActorInst × Option ActorInst :=
  (⟨ctx, uid⟩, some ⟨ctx, uid⟩)

/-- `Actor.shared` (actor.py lines 201-203):
`cls._shared_instance or cls(ActorContext.FRONTEND).start()` — return the
registered instance if one exists, otherwise construct a fresh frontend
instance (which registers itself) and start it (`start` returns `self`).
`fresh` is the identity of the instance constructed in the latter case. -/
def actorShared (reg : Option ActorInst) (fresh : Nat) :
    ActorInst × Option ActorInst :=
  match reg with
  | some i => (i, some i)
  | Option.none => actorInit ActorContext.FRONTEND fresh reg

/-!
## Helper lemmas about sender runs
-/

lemma senderRunAux_done (rs : List WireValue) (f : Future) (ev : List Event)
    (s c : Nat) (h : f.done = true) :
    senderRunAux f ev s c rs = ⟨f, ev, s, c, true, Option.none⟩ := by
  cases rs <;> simp [senderRunAux, h]

lemma senderRunAux_val (f : Future) (ev : List Event) (s c : Nat) (v : Value)
    (rest : List WireValue) (hd : f.done = false) (hc : f.cancelled = false)
    (hv : v ≠ endValue) :
    senderRunAux f ev s c (WireValue.val v :: rest) =
      senderRunAux { f with responses := f.responses ++ [v] }
        (ev ++ f.responseCallbacks.map (fun i => Event.responseCb i v))
        s (c + 1) rest := by
  simp [senderRunAux, senderStep, hd, hc, hv, Future.add_response]

lemma senderRunAux_end (f : Future) (ev : List Event) (s c : Nat)
    (rest : List WireValue) (hd : f.done = false) (hc : f.cancelled = false) :
    senderRunAux f ev s c (WireValue.val endValue :: rest) =
      ⟨{ f with done := true }, ev ++ f.doneCallbacks.map Event.doneCb,
        s, c + 1, true, Option.none⟩ := by
  simp [senderRunAux, senderStep, hd, hc, Future.set_done, senderRunAux_done]

lemma senderRunAux_traced (f : Future) (ev : List Event) (s c : Nat)
    (t : TracedError) (rest : List WireValue) (hd : f.done = false)
    (hc : f.cancelled = false) :
    senderRunAux f ev s c (WireValue.traced t :: rest) =
      senderRunAux { f with exception := some (attachTrace t) }
        ev s (c + 1) rest := by
  simp [senderRunAux, senderStep, hd, hc, Future.set_exception]

lemma senderRunAux_vals (vs : List Value) :
    ∀ (f : Future) (ev : List Event) (s c : Nat) (rest : List WireValue),
      f.done = false → f.cancelled = false → (∀ v ∈ vs, v ≠ endValue) →
      senderRunAux f ev s c (vs.map WireValue.val ++ rest) =
        senderRunAux { f with responses := f.responses ++ vs }
          (ev ++ vs.flatMap
            (fun v => f.responseCallbacks.map (fun i => Event.responseCb i v)))
          s (c + vs.length) rest := by
  induction vs with
  | nil => intro f ev s c rest hd hc _; simp
  | cons v vs ih =>
    intro f ev s c rest hd hc hv
    rw [List.map_cons, List.cons_append,
      senderRunAux_val f ev s c v _ hd hc (hv v (by simp))]
    rw [ih _ _ _ _ _ (by simp [hd]) (by simp [hc])
      (fun w hw => hv w (by simp [hw]))]
    simp [List.append_assoc, Nat.add_comm, Nat.add_assoc, Nat.add_left_comm]

lemma receiveGenLoop_eq (vs : List Value) :
    ∀ (mq : List Value) (out : List WireValue),
      receiveGenLoop mq out vs = (mq.drop vs.length, out ++ vs.map WireValue.val) := by
  induction vs with
  | nil => intro mq out; simp [receiveGenLoop]
  | cons v vs ih =>
    intro mq out
    simp [receiveGenLoop, ih, List.drop_drop, Nat.add_comm]

lemma senderRun_fresh_vals_end (vs : List Value) (rcb dcb : List Nat)
    (hv : ∀ v ∈ vs, v ≠ endValue) :
    senderRun (Future.fresh rcb dcb)
        (vs.map WireValue.val ++ [WireValue.val endValue]) =
      ⟨⟨vs, Option.none, true, false, false, rcb, dcb⟩,
       vs.flatMap (fun v => rcb.map (fun i => Event.responseCb i v)) ++
         dcb.map Event.doneCb,
       0, vs.length + 1, true, Option.none⟩ := by
  rw [senderRun, senderRunAux_vals vs _ _ _ _ _ rfl rfl hv]
  rw [senderRunAux_end _ _ _ _ _ rfl rfl]
  simp [Future.fresh]

lemma senderRun_fresh_vals_traced_end (vs : List Value) (t : TracedError)
    (rcb dcb : List Nat) (hv : ∀ v ∈ vs, v ≠ endValue) :
    senderRun (Future.fresh rcb dcb)
        (vs.map WireValue.val ++ [WireValue.traced t, WireValue.val endValue]) =
      ⟨⟨vs, some (attachTrace t), true, false, false, rcb, dcb⟩,
       vs.flatMap (fun v => rcb.map (fun i => Event.responseCb i v)) ++
         dcb.map Event.doneCb,
       0, vs.length + 2, true, Option.none⟩ := by
  rw [senderRun, senderRunAux_vals vs _ _ _ _ _ rfl rfl hv]
  rw [senderRunAux_traced _ _ _ _ _ _ rfl rfl]
  rw [senderRunAux_end _ _ _ _ _ rfl rfl]
  simp [Future.fresh]

/-!
## Claim theorems
-/

/-- Claim C1: `Future.result()` re-raises a recorded exception; otherwise,
once done, it returns `None` for zero accumulated responses, the single
value for exactly one, and the full ordered list for more than one; when
not yet done it blocks on a registered done-callback and the completed
state is resolved by the same rule.  End to end, a generator-valued call
producing `k` values resolves to `None` for `k = 0`, the element for
`k = 1`, and the ordered length-`k` list for `k > 1`. -/
theorem C1_result_resolution :
    (∀ (f : Future) (e : PyErr), f.exception = some e →
        Future.result? f = some (Except.error e)) ∧
    (∀ f : Future, f.exception = Option.none → f.done = true →
        f.responses = [] →
        Future.result? f = some (Except.ok (ResultValue.ofValue Value.vnone))) ∧
    (∀ (f : Future) (v : Value), f.exception = Option.none → f.done = true →
        f.responses = [v] →
        Future.result? f = some (Except.ok (ResultValue.ofValue v))) ∧
    (∀ f : Future, f.exception = Option.none → f.done = true →
        2 ≤ f.responses.length →
        Future.result? f = some (Except.ok (ResultValue.ofList f.responses))) ∧
    (∀ f : Future, f.exception = Option.none → f.done = false →
        Future.result? f = Option.none) ∧
    (∀ f : Future, f.done = true → Future.result? f = some (resolveDone f)) ∧
    (∀ (vs : List Value) (rcb dcb : List Nat), (∀ v ∈ vs, v ≠ endValue) →
        (senderRun (Future.fresh rcb dcb)
            (Actor.receive [] (CallBehavior.gen vs Option.none)).2).future.done
            = true ∧
        Future.result? (senderRun (Future.fresh rcb dcb)
            (Actor.receive [] (CallBehavior.gen vs Option.none)).2).future =
          some (Except.ok (resolveResponses vs))) := by
  refine ⟨?_, ?_, ?_, ?_, ?_, ?_, ?_⟩
  · intro f e he
    simp [Future.result?, he]
  · intro f he hd hr
    simp [Future.result?, he, hd, hr, resolveResponses]
  · intro f v he hd hr
    simp [Future.result?, he, hd, hr, resolveResponses]
  · intro f he hd hr
    simp only [Future.result?, he, hd, if_true]
    match hres : f.responses with
    | [] => rw [hres] at hr; simp at hr
    | [v] => rw [hres] at hr; simp at hr
    | a :: b :: rest => simp [resolveResponses]
  · intro f he hd
    simp [Future.result?, he, hd]
  · intro f hd
    cases he : f.exception with
    | some e => simp [Future.result?, resolveDone, he]
    | none => simp [Future.result?, resolveDone, he, hd]
  · intro vs rcb dcb hv
    have hrecv : (Actor.receive [] (CallBehavior.gen vs Option.none)).2 =
        vs.map WireValue.val ++ [WireValue.val endValue] := by
      simp [Actor.receive, receiveGenLoop_eq]
    rw [hrecv, senderRun_fresh_vals_end vs rcb dcb hv]
    simp [Future.result?]

/-- Witness for C1: concrete instantiations — a done future with one
response resolves to that value; a completed two-value generator call
resolves to the ordered pair. -/
theorem C1_result_resolution_witness :
    Future.result? ⟨[Value.int 7], Option.none, true, false, false, [], []⟩ =
      some (Except.ok (ResultValue.ofValue (Value.int 7))) ∧
    Future.result? (senderRun (Future.fresh [] [])
        (Actor.receive []
          (CallBehavior.gen [Value.int 1, Value.int 2] Option.none)).2).future =
      some (Except.ok (ResultValue.ofList [Value.int 1, Value.int 2])) :=
  ⟨C1_result_resolution.2.2.1 _ (Value.int 7) rfl rfl rfl,
   (C1_result_resolution.2.2.2.2.2.2 [Value.int 1, Value.int 2] [] []
      (by decide)).2⟩

/-- Claim C5: a second `set_done()` on an already-done future raises the
assertion (fatal) and leaves the state — in particular the `done` flag —
unchanged (still true); a single `set_done()` on a not-done future flips
`done` and invokes every registered done-callback with the future. -/
theorem C5_set_done_at_most_once (f : Future) :
    (f.done = true →
      Future.set_done f = ⟨f, [], some PyErr.assertionError⟩) ∧
    (f.done = false →
      Future.set_done f =
        ⟨{ f with done := true }, f.doneCallbacks.map Event.doneCb,
          Option.none⟩) := by
  constructor <;> intro h <;> simp [Future.set_done, h]

/-- Witness for C5: both branches at concrete futures — the double call
on a done future raises `AssertionError` keeping `done = true`, and the
first call on a fresh future with two registered done-callbacks fires
both. -/
theorem C5_set_done_at_most_once_witness :
    Future.set_done ⟨[], Option.none, true, false, false, [], [0, 1]⟩ =
      ⟨⟨[], Option.none, true, false, false, [], [0, 1]⟩, [],
        some PyErr.assertionError⟩ ∧
    Future.set_done ⟨[], Option.none, false, false, false, [], [0, 1]⟩ =
      ⟨⟨[], Option.none, true, false, false, [], [0, 1]⟩,
        [Event.doneCb 0, Event.doneCb 1], Option.none⟩ :=
  ⟨(C5_set_done_at_most_once _).1 rfl,
   (C5_set_done_at_most_once _).2 rfl⟩

/-- Claim C9: `Actor.__init__` unconditionally overwrites the class-level
`_shared_instance` slot with the new instance, in either context and
whatever the registry previously held, so `shared()` returns the most
recently constructed instance; only on an empty registry does `shared()`
construct (and register) a fresh `FRONTEND` instance. -/
theorem C9_shared_registry_overwrite :
    (∀ (ctx : ActorContext) (uid fresh : Nat) (reg : Option ActorInst),
      (actorInit ctx uid reg).2 = some ⟨ctx, uid⟩ ∧
      actorShared (actorInit ctx uid reg).2 fresh =
        (⟨ctx, uid⟩, some ⟨ctx, uid⟩)) ∧
    (∀ (ctx : ActorContext) (uid : Nat) (r₁ r₂ : Option ActorInst),
      actorInit ctx uid r₁ = actorInit ctx uid r₂) ∧
    (∀ fresh : Nat,
      actorShared Option.none fresh =
        (⟨ActorContext.FRONTEND, fresh⟩,
         some ⟨ActorContext.FRONTEND, fresh⟩)) := by
  exact ⟨fun ctx uid fresh reg => ⟨rfl, rfl⟩, fun ctx uid r₁ r₂ => rfl,
    fun fresh => rfl⟩

/-- Claim C10: `cancel()` invokes `set_done()`: on a not-yet-done future
it raises nothing, marks the future done, fires every registered
done-callback, leaves the responses untouched, and `result()` no longer
blocks — resolving (absent a recorded exception) to the responses
accumulated so far; on an already-done future `cancel()` fails the
`set_done` assertion, as does the sender thread's `set_done` when the
`END` sentinel arrives after a `cancel()`. -/
theorem C10_cancel_invokes_set_done (f : Future) :
    (f.done = false →
      (Future.cancel f).raised = Option.none ∧
      (Future.cancel f).future.done = true ∧
      (Future.cancel f).events = f.doneCallbacks.map Event.doneCb ∧
      (Future.cancel f).future.responses = f.responses ∧
      Future.result? (Future.cancel f).future ≠ Option.none ∧
      (f.exception = Option.none →
        Future.result? (Future.cancel f).future =
          some (Except.ok (resolveResponses f.responses)))) ∧
    (f.done = true →
      (Future.cancel f).raised = some PyErr.assertionError ∧
      (Future.cancel f).future.done = true) ∧
    (f.done = true →
      (senderStep f (WireValue.val endValue)).raised =
        some PyErr.assertionError) := by
  refine ⟨?_, ?_, ?_⟩
  · intro hd
    refine ⟨?_, ?_, ?_, ?_, ?_, ?_⟩
    · simp [Future.cancel, Future.set_done, hd]
    · simp [Future.cancel, Future.set_done, hd]
    · simp [Future.cancel, Future.set_done, hd]
    · simp [Future.cancel, Future.set_done, hd]
    · cases he : f.exception with
      | some e => simp [Future.cancel, Future.set_done, hd, Future.result?, he]
      | none => simp [Future.cancel, Future.set_done, hd, Future.result?, he]
    · intro he
      simp [Future.cancel, Future.set_done, hd, Future.result?, he]
  · intro hd
    constructor <;> simp [Future.cancel, Future.set_done, hd]
  · intro hd
    simp [senderStep, Future.set_done, hd]

/-- Witness for C10: all three branches at concrete futures — cancelling
a fresh future with one registered done-callback completes it and fires
the callback, cancelling it again raises the assertion, and a subsequent
`END` from the sender raises the assertion too. -/
theorem C10_cancel_invokes_set_done_witness :
    (Future.cancel (Future.fresh [] [4])).raised = Option.none ∧
    (Future.cancel (Future.fresh [] [4])).future.done = true ∧
    (Future.cancel (Future.fresh [] [4])).events = [Event.doneCb 4] ∧
    Future.result? (Future.cancel (Future.fresh [] [4])).future =
      some (Except.ok (ResultValue.ofValue Value.vnone)) ∧
    (Future.cancel (Future.cancel (Future.fresh [] [4])).future).raised =
      some PyErr.assertionError ∧
    (senderStep (Future.cancel (Future.fresh [] [4])).future
        (WireValue.val endValue)).raised = some PyErr.assertionError := by
  have h₁ := (C10_cancel_invokes_set_done (Future.fresh [] [4])).1 rfl
  have h₂ := (C10_cancel_invokes_set_done
    (Future.cancel (Future.fresh [] [4])).future).2.1 (by decide)
  have h₃ := (C10_cancel_invokes_set_done
    (Future.cancel (Future.fresh [] [4])).future).2.2 (by decide)
  exact ⟨h₁.1, h₁.2.1, h₁.2.2.1, by simpa using h₁.2.2.2.2.2 rfl, h₂.1, h₃⟩

/-- Claim C2: when the invoked method raises, `_receive` wraps the
exception and its formatted trace as a `TracedError` and pushes it instead
of any result; the `END` sentinel is pushed last on every path (single
value, generator, generator failing midway, immediate raise); and the
dispatch loop keeps serving the remaining messages after any handled
failure. -/
theorem C2_receive_wraps_and_terminates :
    (∀ (mq : List Value) (e : PyErr) (tr : String),
      Actor.receive mq (CallBehavior.raises e tr) =
        (mq, [WireValue.traced ⟨e, tr⟩, WireValue.val endValue])) ∧
    (∀ (mq : List Value) (beh : CallBehavior),
      ((Actor.receive mq beh).2).getLast? = some (WireValue.val endValue)) ∧
    (∀ (mq : List Value) (b : CallBehavior) (rest : List CallBehavior),
      backendServe mq (b :: rest) =
        (Actor.receive mq b).2 ++ backendServe (Actor.receive mq b).1 rest) := by
  refine ⟨fun mq e tr => rfl, ?_, fun mq b rest => rfl⟩
  intro mq beh
  cases beh with
  | single v => rfl
  | raises e tr => rfl
  | gen vs err =>
    cases err with
    | none =>
      simp only [Actor.receive]
      rw [List.getLast?_concat]
    | some p =>
      simp only [Actor.receive]
      rw [show (receiveGenLoop mq [] vs).2 ++
            [WireValue.traced ⟨p.1, p.2⟩, WireValue.val endValue] =
          ((receiveGenLoop mq [] vs).2 ++ [WireValue.traced ⟨p.1, p.2⟩]) ++
            [WireValue.val endValue] by simp]
      rw [List.getLast?_concat]

/-- Claim C3 (evaluating the code at the failing input): the cancel check
of the generator branch is dead — `extra_message` is assigned `None` and
never the drained message, so the comparison with `CANCEL` is always false
and every yielded value is pushed, whatever the inbound queue holds; in
particular with `CANCEL` already queued before the first emission, both
values of a two-element generator are still pushed. -/
theorem C3_cancel_check_is_dead :
    (∀ (mq vs : List Value),
      Actor.receive mq (CallBehavior.gen vs Option.none) =
        (mq.drop vs.length,
         vs.map WireValue.val ++ [WireValue.val endValue])) ∧
    Actor.receive [cancelValue]
        (CallBehavior.gen [Value.int 1, Value.int 2] Option.none) =
      ([], [WireValue.val (Value.int 1), WireValue.val (Value.int 2),
            WireValue.val endValue]) := by
  constructor
  · intro mq vs
    simp [Actor.receive, receiveGenLoop_eq]
  · rfl

/-- Claim C4 (evaluating the code at the failing input): `cancel()` writes
the attribute `_cancelled`, not the `cancelled` attribute the sender
thread reads, so after `cancel()` on a fresh future `cancelled` is still
false (while `_cancelled` is true and the future is already done), and a
sender run never pushes the `CANCEL` sentinel. -/
theorem C4_cancel_attribute_mismatch :
    (Future.cancel (Future.fresh [] [])).future.cancelled = false ∧
    (Future.cancel (Future.fresh [] [])).future.ucancelled = true ∧
    (Future.cancel (Future.fresh [] [])).future.done = true ∧
    (senderRun (Future.cancel (Future.fresh [] [])).future
        [WireValue.val (Value.int 5), WireValue.val endValue]).cancelsSent
      = 0 ∧
    (senderRun (Future.fresh [] [])
        [WireValue.val (Value.int 5), WireValue.val endValue]).cancelsSent
      = 0 := by
  refine ⟨rfl, rfl, rfl, rfl, ?_⟩
  rw [show ([WireValue.val (Value.int 5), WireValue.val endValue] :
        List WireValue) =
      [Value.int 5].map WireValue.val ++ [WireValue.val endValue] by rfl]
  rw [senderRun_fresh_vals_end [Value.int 5] [] [] (by decide)]

/-- Counterexample to claim C6: fed `[TracedError, END]`, the sender loop
does not exit after the wrapped error payload — it consumes the following
`END` as well (two payloads, not one), so it does read a further response
for that call after the error. -/
theorem C6_counterexample_error_does_not_exit :
    (senderRun (Future.fresh [] [])
        [WireValue.traced ⟨⟨"ValueError", "boom", Option.none⟩, "tb"⟩,
         WireValue.val endValue]).consumed = 2 ∧
    ¬ (senderRun (Future.fresh [] [])
        [WireValue.traced ⟨⟨"ValueError", "boom", Option.none⟩, "tb"⟩,
         WireValue.val endValue]).consumed = 1 := by
  decide

/-- Claim C6 as amended: reading `END` marks the future done and exits the
loop (later payloads stay unread); reading a wrapped error payload sets
the future's exception (trace attached as the cause) but does not exit —
the loop keeps reading, and only the subsequent `END` marks the future
done and ends the loop. -/
theorem C6_sender_end_exits_error_continues (f : Future) (hd : f.done = false)
    (hc : f.cancelled = false) :
    (∀ rest : List WireValue,
      senderRun f (WireValue.val endValue :: rest) =
        ⟨{ f with done := true }, f.doneCallbacks.map Event.doneCb,
          0, 1, true, Option.none⟩) ∧
    (∀ (t : TracedError) (rest : List WireValue),
      senderRun f (WireValue.traced t :: rest) =
        senderRunAux { f with exception := some (attachTrace t) }
          [] 0 1 rest) ∧
    (∀ t : TracedError,
      (senderRun f [WireValue.traced t, WireValue.val endValue]).future =
        { f with exception := some (attachTrace t), done := true } ∧
      (senderRun f [WireValue.traced t, WireValue.val endValue]).consumed
        = 2) := by
  refine ⟨?_, ?_, ?_⟩
  · intro rest
    rw [senderRun, senderRunAux_end _ _ _ _ _ hd hc]
    simp
  · intro t rest
    rw [senderRun, senderRunAux_traced _ _ _ _ _ _ hd hc]
  · intro t
    rw [senderRun, senderRunAux_traced _ _ _ _ _ _ hd hc,
      senderRunAux_end _ _ _ _ _ (by simp [hd]) (by simp [hc])]
    exact ⟨rfl, rfl⟩

/-- Witness for the amended C6: at a fresh future with one registered
done-callback, `END` alone completes it in one read, and an error payload
followed by `END` leaves the exception set, the future done, and two
payloads consumed. -/
theorem C6_sender_end_exits_error_continues_witness :
    senderRun (Future.fresh [] [9]) [WireValue.val endValue] =
      ⟨⟨[], Option.none, true, false, false, [], [9]⟩, [Event.doneCb 9],
        0, 1, true, Option.none⟩ ∧
    (senderRun (Future.fresh [] [9])
        [WireValue.traced ⟨⟨"ValueError", "boom", Option.none⟩, "tb"⟩,
         WireValue.val endValue]).future =
      ⟨[], some ⟨"ValueError", "boom", some "tb"⟩, true, false, false,
        [], [9]⟩ :=
  ⟨(C6_sender_end_exits_error_continues (Future.fresh [] [9]) rfl rfl).1 [],
   ((C6_sender_end_exits_error_continues (Future.fresh [] [9]) rfl rfl).2.2
      ⟨⟨"ValueError", "boom", Option.none⟩, "tb"⟩).1⟩

/-- Counterexample to claim C7: the name `shared_close` is not in
`_protected_methods`, so the setup filter does classify it — a public,
callable member — as one to replace with a remote-call proxy. -/
theorem C7_counterexample_shared_close_not_exempt :
    replacedByProxy ⟨"shared_close", true⟩ = true ∧
    protectedMethods.contains "shared_close" = false := by
  decide

/-- Claim C7 as amended: frontend setup replaces every public, callable,
non-underscore-prefixed member whose name is outside the reserved set with
a remote-call proxy; the exempt infrastructure set is exactly `start`,
`close`, `is_alive`, `can_use` and `shared` — each of these is never
replaced, nor is any non-callable or underscore-prefixed member;
`shared_close` is not exempt and is replaced like any public callable
member. -/
theorem C7_protected_methods_exempt :
    (∀ m : Member, m.isCallable = true →
      startsWithUnderscore m.name = false →
      protectedMethods.contains m.name = false →
      replacedByProxy m = true) ∧
    (∀ (n : String) (c : Bool),
      (n = "start" ∨ n = "close" ∨ n = "is_alive" ∨ n = "can_use" ∨
        n = "shared") →
      replacedByProxy ⟨n, c⟩ = false) ∧
    replacedByProxy ⟨"shared_close", true⟩ = true ∧
    (∀ m : Member, startsWithUnderscore m.name = true →
      replacedByProxy m = false) ∧
    (∀ m : Member, m.isCallable = false → replacedByProxy m = false) := by
  refine ⟨?_, ?_, by decide, ?_, ?_⟩
  · intro m hc hu hp
    have hp' : m.name ∉ protectedMethods := by simpa using hp
    simp [replacedByProxy, hc, hu, hp']
  · rintro n c (rfl | rfl | rfl | rfl | rfl) <;>
      simp [replacedByProxy, protectedMethods]
  · intro m h
    simp [replacedByProxy, h]
  · intro m h
    simp [replacedByProxy, h]

/-- Witness for the amended C7: `generate` (a public callable business
method) and `shared_close` are proxied, while `close` (reserved),
`_receive` (underscore-prefixed) and a non-callable member are kept
local. -/
theorem C7_protected_methods_exempt_witness :
    replacedByProxy ⟨"generate", true⟩ = true ∧
    replacedByProxy ⟨"close", true⟩ = false ∧
    replacedByProxy ⟨"shared_close", true⟩ = true ∧
    replacedByProxy ⟨"_receive", true⟩ = false ∧
    replacedByProxy ⟨"generate", false⟩ = false :=
  ⟨C7_protected_methods_exempt.1 ⟨"generate", true⟩ rfl (by decide) (by decide),
   C7_protected_methods_exempt.2.1 "close" true (Or.inr (Or.inl rfl)),
   C7_protected_methods_exempt.2.2.1,
   C7_protected_methods_exempt.2.2.2.1 ⟨"_receive", true⟩ rfl,
   C7_protected_methods_exempt.2.2.2.2 ⟨"generate", false⟩ rfl⟩

/-- Claim C8: the `Future` state invariants — no operation resets `done`
to false (and `set_done` on a done future is rejected with the state
unchanged), every operation only ever appends to `responses`, and over
the sender's processing of a call's well-formed response stream (values,
then at most one wrapped error, then `END`) the exception slot is set at
most once — exactly at the error payload — with every response delivered
before it and none after, `done` flipping false→true exactly once at the
terminal `END`. -/
theorem C8_future_state_invariants :
    (∀ (f : Future) (v : Value),
      (Future.add_response f v).future.done = f.done ∧
      (Future.add_response f v).future.exception = f.exception ∧
      (Future.add_response f v).future.responses = f.responses ++ [v]) ∧
    (∀ (f : Future) (e : PyErr),
      (Future.set_exception f e).future.done = f.done ∧
      (Future.set_exception f e).future.responses = f.responses) ∧
    (∀ f : Future, f.done = true →
      Future.set_done f = ⟨f, [], some PyErr.assertionError⟩) ∧
    (∀ (f : Future) (r : WireValue), f.done = true →
      (senderStep f r).future.done = true) ∧
    (∀ (f : Future) (r : WireValue),
      ∃ t, (senderStep f r).future.responses = f.responses ++ t) ∧
    (∀ (vs : List Value) (t : TracedError) (rcb dcb : List Nat),
      (∀ v ∈ vs, v ≠ endValue) →
      senderRun (Future.fresh rcb dcb)
          (vs.map WireValue.val ++
            [WireValue.traced t, WireValue.val endValue]) =
        ⟨⟨vs, some (attachTrace t), true, false, false, rcb, dcb⟩,
         vs.flatMap (fun v => rcb.map (fun i => Event.responseCb i v)) ++
           dcb.map Event.doneCb,
         0, vs.length + 2, true, Option.none⟩) ∧
    (∀ (vs : List Value) (rcb dcb : List Nat),
      (∀ v ∈ vs, v ≠ endValue) →
      senderRun (Future.fresh rcb dcb)
          (vs.map WireValue.val ++ [WireValue.val endValue]) =
        ⟨⟨vs, Option.none, true, false, false, rcb, dcb⟩,
         vs.flatMap (fun v => rcb.map (fun i => Event.responseCb i v)) ++
           dcb.map Event.doneCb,
         0, vs.length + 1, true, Option.none⟩) := by
  refine ⟨?_, ?_, ?_, ?_, ?_, ?_, ?_⟩
  · intro f v
    exact ⟨rfl, rfl, rfl⟩
  · intro f e
    exact ⟨rfl, rfl⟩
  · intro f h
    simp [Future.set_done, h]
  · intro f r h
    cases r with
    | val v =>
      by_cases hv : v = endValue <;>
        simp [senderStep, Future.set_done, Future.add_response, hv, h]
    | traced t => simp [senderStep, Future.set_exception, h]
    | exc e => simp [senderStep, Future.set_exception, h]
  · intro f r
    cases r with
    | val v =>
      by_cases hv : v = endValue
      · by_cases hd : f.done <;>
          exact ⟨[], by simp [senderStep, Future.set_done, hv, hd]⟩
      · exact ⟨[v], by simp [senderStep, Future.add_response, hv]⟩
    | traced t => exact ⟨[], by simp [senderStep, Future.set_exception]⟩
    | exc e => exact ⟨[], by simp [senderStep, Future.set_exception]⟩
  · intro vs t rcb dcb hv
    exact senderRun_fresh_vals_traced_end vs t rcb dcb hv
  · intro vs rcb dcb hv
    exact senderRun_fresh_vals_end vs rcb dcb hv

/-- Witness for C8: concrete instantiations — a rejected second
`set_done`, and a full sender run on the stream `[1, error, END]` from a
fresh future with one response callback and one done callback, showing
the single response delivered before the error, the exception set once,
and `done` flipped at the terminal `END`. -/
theorem C8_future_state_invariants_witness :
    Future.set_done ⟨[], Option.none, true, false, false, [], []⟩ =
      ⟨⟨[], Option.none, true, false, false, [], []⟩, [],
        some PyErr.assertionError⟩ ∧
    senderRun (Future.fresh [3] [4])
        [WireValue.val (Value.int 1),
         WireValue.traced ⟨⟨"ValueError", "boom", Option.none⟩, "tb"⟩,
         WireValue.val endValue] =
      ⟨⟨[Value.int 1], some ⟨"ValueError", "boom", some "tb"⟩, true, false,
          false, [3], [4]⟩,
        [Event.responseCb 3 (Value.int 1), Event.doneCb 4],
        0, 3, true, Option.none⟩ :=
  ⟨C8_future_state_invariants.2.2.1 _ rfl,
   C8_future_state_invariants.2.2.2.2.2.1 [Value.int 1]
      ⟨⟨"ValueError", "boom", Option.none⟩, "tb"⟩ [3] [4] (by decide)⟩
